import Mathlib

/-!
Verification of the gnomAD v3 QC pipeline scripts (gnomad_qc).

Shallow embedding of the claim-relevant parts of:
  - gnomad_qc/v3/variant_qc/random_forest.py
  - gnomad_qc/v3/sample_qc/sample_qc.py
  - gnomad_qc/v3/annotations/generate_qc_annotations.py
  - gnomad_qc/v3/create_release/make_var_annot_hists.py
  - gnomad_qc/v3/resources/annotations.py

Hail (the external engine) float arithmetic is embedded as real arithmetic,
Hail tables as lists of rows, Python dictionaries as association lists, and
Python runtime errors (TypeError, NameError) as an explicit error type.
-/

namespace GnomadQC

/-! ## calc_SOR (random_forest.py, create_rf_ht)

The source computes, on a strand-bias array `SB = [refFw, refRv, altFw, altRv]`:
    refFw = float64(SB[0] + 1); refRv = float64(SB[1] + 1)
    altFw = float64(SB[2] + 1); altRv = float64(SB[3] + 1)
    symmetricalRatio = (refFw*altRv)/(altFw*refRv) + (altFw*refRv)/(refFw*altRv)
    refRatio = min(refRv, refFw) / max(refRv, refFw)
    altRatio = min(altFw, altRv) / max(altFw, altRv)
    SOR = log(symmetricalRatio) + log(refRatio) - log(altRatio)
`hl.log` is the natural logarithm. Counts are embedded as naturals (they are
genotype counts, hence non-negative) and float arithmetic as real arithmetic. -/
noncomputable def calc_SOR (SB : Fin 4 → ℕ) : ℝ :=
  let refFw : ℝ := (SB 0 : ℝ) + 1
  let refRv : ℝ := (SB 1 : ℝ) + 1
  let altFw : ℝ := (SB 2 : ℝ) + 1
  let altRv : ℝ := (SB 3 : ℝ) + 1
  let symmetricalRatio : ℝ :=
    ((refFw * altRv) / (altFw * refRv)) + ((altFw * refRv) / (refFw * altRv))
  let refRatio : ℝ := min refRv refFw / max refRv refFw
  let altRatio : ℝ := min altFw altRv / max altFw altRv
  Real.log symmetricalRatio + Real.log refRatio - Real.log altRatio

/-- The published GATK strand-odds-ratio formula, written from the spec claim:
with a pseudocount of 1 added to each of the four counts (refFw, refRv, altFw,
altRv), the result is
  log((refFw*altRv)/(altFw*refRv) + (altFw*refRv)/(refFw*altRv))
  + log(min(refRv,refFw)/max(refRv,refFw))
  - log(min(altFw,altRv)/max(altFw,altRv)). -/
noncomputable def gatk_SOR_formula (SB : Fin 4 → ℕ) : ℝ :=
  let refFw : ℝ := (SB 0 : ℝ) + 1
  let refRv : ℝ := (SB 1 : ℝ) + 1
  let altFw : ℝ := (SB 2 : ℝ) + 1
  let altRv : ℝ := (SB 3 : ℝ) + 1
  Real.log (((refFw * altRv) / (altFw * refRv)) + ((altFw * refRv) / (refFw * altRv)))
    + Real.log (min refRv refFw / max refRv refFw)
    - Real.log (min altFw altRv / max altFw altRv)

/-! ## CLI flag validation (random_forest.py, __main__ block)

    if not args.run_hash and not args.train_rf and args.apply_rf:
        sys.exit("Error: --run_hash is required ...")
    if args.run_hash and args.train_rf:
        sys.exit("Error: --run_hash and --train_rf are mutually exclusive ...")
After these two checks the script calls main(args).
`run_hash` is an optional string argument (argparse default None); Python
truthiness of a string is "not None and not empty". -/
structure RfCliArgs where
  run_hash : Option String
  train_rf : Bool
  apply_rf : Bool

/-- Python truthiness of an optional string: None and the empty string are falsy. -/
def pyTruthy : Option String → Bool
  | none => false
  | some s => !(s == "")

/-- Embedding of the two validation checks guarding main in random_forest.py.
Returns the sys.exit message when the script exits before main, none when the
flag combination proceeds into main. -/
def rf_cli_exit (a : RfCliArgs) : Option String :=
  if !(pyTruthy a.run_hash) && !a.train_rf && a.apply_rf then
    some ("Error: --run_hash is required when running --apply_rf without running --train_rf too.")
  else if pyTruthy a.run_hash && a.train_rf then
    some ("Error: --run_hash and --train_rf are mutually exclusive. --train_rf will generate a run hash.")
  else
    none

/-! ## get_relationship_filter_expr (sample_qc.py)

    hl.case()
      .when(hard_filtered_expr, hl.null(hl.tbool))
      .when(hl.is_defined(relationship_set), relationship_set.contains(relationship))
      .default(False)
Hail missingness is embedded as Option. -/

/-- Hail case builder chain over boolean values: the value of the first `when`
whose condition holds, else the default. -/
def hlCaseChain (whens : List (Bool × Option Bool)) (dflt : Option Bool) : Option Bool :=
  match whens with
  | [] => dflt
  | (c, v) :: rest => if c then v else hlCaseChain rest dflt

/-- Embedding of get_relationship_filter_expr from sample_qc.py. The
relationship set is an Optional list of relationship strings (missing when the
sample has no entry in the relatedness table). -/
def get_relationship_filter_expr (hard_filtered : Bool) (relationship : String)
    (relationship_set : Option (List String)) : Option Bool :=
  hlCaseChain
    [ (hard_filtered, none),
      (relationship_set.isSome, relationship_set.map (fun s => s.contains relationship)) ]
    (some false)

/-! ## Checkpoint calls across the pipeline scripts (claim C1)

Every call to `.checkpoint(path, ...)` in the three orchestration scripts is
recorded here, with the `overwrite=` and `_read_if_exists=` arguments as
functions of the CLI `--overwrite` flag. Hail's Table.checkpoint defaults
`_read_if_exists` to False when the keyword is not passed. Paths of resources
whose definitions are outside the provided sources (get_checkpoint_path,
get_rf) are recorded symbolically by their call expression. -/
structure CheckpointCall where
  script : String
  stage : String
  path : String
  overwriteArg : Bool → Bool
  readIfExistsArg : Bool → Bool

/-- All checkpoint calls in generate_qc_annotations.py, sample_qc.py and
random_forest.py, transcribed from the source. -/
def checkpointCalls : List CheckpointCall :=
  [ ⟨"generate_qc_annotations.py", "generate_ac", "gs://gnomad-tmp/ac_tmp.ht",
      fun ov => ov, fun ov => !ov⟩,
    ⟨"generate_qc_annotations.py", "generate_fam_stats", "gs://gnomad-tmp/fam_stats_tmp.ht",
      fun ov => ov, fun ov => !ov⟩,
    ⟨"sample_qc.py", "compute_qc_mt", "gs://gnomad-tmp/gnomad_v3_qc_mt_v2_sites_dense.mt",
      fun _ => true, fun _ => false⟩,
    ⟨"sample_qc.py", "compute_qc_mt", "gs://gnomad-tmp/gnomad_v3_qc_mt_v2_sites_dense_repartitioned.mt",
      fun _ => true, fun _ => false⟩,
    ⟨"sample_qc.py", "reannotate_sex", "gs://gnomad-tmp/sex_ht_checkpoint.ht",
      fun _ => true, fun _ => false⟩,
    ⟨"sample_qc.py", "reannotate_sex", "gs://gnomad-tmp/hardfilter_checkpoint.ht",
      fun _ => true, fun _ => false⟩,
    ⟨"sample_qc.py", "run_pc_relate", "pc_relate_pca_scores.path",
      fun ov => ov, fun ov => !ov⟩,
    ⟨"sample_qc.py", "reannotate_relatedness", "gs://gnomad-tmp/relatedness_ht_checkpoint.ht",
      fun _ => true, fun _ => false⟩,
    ⟨"sample_qc.py", "run_pca", "pca_samples_rankings.path",
      fun ov => ov, fun ov => !ov⟩,
    ⟨"sample_qc.py", "run_pca", "pca_related_samples_to_drop.path",
      fun ov => ov, fun ov => !ov⟩,
    ⟨"sample_qc.py", "assign_pops", "pop.path",
      fun ov => ov, fun ov => !ov⟩,
    ⟨"sample_qc.py", "calculate_clinvar", "gs://gnomad-tmp/clinvar_variants.mt",
      fun _ => true, fun _ => false⟩,
    ⟨"sample_qc.py", "compute_related_samples_to_drop", "release_samples_rankings.path",
      fun ov => ov, fun ov => !ov⟩,
    ⟨"sample_qc.py", "generate_metadata", "meta.path",
      fun ov => ov, fun ov => !ov⟩,
    ⟨"random_forest.py", "annotate_for_rf", "get_checkpoint_path(rf_annotation)",
      fun _ => true, fun _ => false⟩,
    ⟨"random_forest.py", "train_rf", "get_rf(training, run_hash).path",
      fun ov => ov, fun _ => false⟩,
    ⟨"random_forest.py", "apply_rf", "get_rf(rf_result, run_hash).path",
      fun ov => ov, fun _ => false⟩ ]

/-- A checkpoint has read-if-exists semantics on a run without --overwrite:
it is taken with _read_if_exists=True and overwrite=False, so a re-run reads
the persisted table instead of recomputing it. -/
def readIfExistsSemantics (c : CheckpointCall) : Bool :=
  c.readIfExistsArg false && !(c.overwriteArg false)

/-- A checkpoint passes overwrite=True regardless of the --overwrite flag. -/
def alwaysOverwrites (c : CheckpointCall) : Bool :=
  c.overwriteArg false && c.overwriteArg true

/-- A checkpoint writes with overwrite tied to the flag but without
_read_if_exists: without --overwrite it neither reads nor overwrites an
existing table (the engine errors if the table exists). -/
def plainWrite (c : CheckpointCall) : Bool :=
  !(c.overwriteArg false) && !(c.readIfExistsArg false)

/-- Checkpoint paths that unconditionally overwrite (temporary scratch
locations plus the rf_annotation checkpoint inside create_rf_ht). -/
def alwaysOverwritePaths : List String :=
  [ "gs://gnomad-tmp/gnomad_v3_qc_mt_v2_sites_dense.mt",
    "gs://gnomad-tmp/gnomad_v3_qc_mt_v2_sites_dense_repartitioned.mt",
    "gs://gnomad-tmp/sex_ht_checkpoint.ht",
    "gs://gnomad-tmp/hardfilter_checkpoint.ht",
    "gs://gnomad-tmp/relatedness_ht_checkpoint.ht",
    "gs://gnomad-tmp/clinvar_variants.mt",
    "get_checkpoint_path(rf_annotation)" ]

/-- Checkpoint paths written without read-if-exists (the training and
rf_result checkpoints of random_forest.py). -/
def plainWritePaths : List String :=
  [ "get_rf(training, run_hash).path", "get_rf(rf_result, run_hash).path" ]

/-! ## join_tables and compare_row_counts (sample_qc.py)

    def compare_row_counts(ht1, ht2):
        r_count1 = ht1.count(); r_count2 = ht2.count()
        logger.info(f"{r_count1} rows in left table; {r_count2} rows in right table")
        return r_count1 == r_count2

    def join_tables(left_ht, left_key, right_ht, right_key, join_type):
        sample_count_match = compare_row_counts(left_ht, right_ht)
        if not sample_count_match:
            logger.warning("Sample counts in left and right tables do not match!")
        return left_ht.key_by(left_key).join(right_ht.key_by(right_key), how=join_type)

The engine join (key_by + join) is external; it is kept as a parameter, so the
theorem holds for every engine join implementation and every join type. -/

/-- A Hail table: a list of rows. -/
structure HTable (α : Type) where
  rows : List α

/-- Table.count: the number of rows. -/
def rowCount (t : HTable α) : ℕ := t.rows.length

/-- Log messages emitted by compare_row_counts and join_tables. -/
inductive LogMsg where
  | rowCounts (r1 r2 : ℕ)
  | sampleCountMismatch
  deriving DecidableEq

/-- Embedding of compare_row_counts: logs the two row counts, returns whether
they are equal. -/
def compare_row_counts (ht1 : HTable α) (ht2 : HTable β) : Bool × List LogMsg :=
  (rowCount ht1 == rowCount ht2, [LogMsg.rowCounts (rowCount ht1) (rowCount ht2)])

/-- Embedding of join_tables: warns when the row counts differ, then returns
the engine join of the left table keyed by left_key with the right table keyed
by right_key, using the given join type. -/
def join_tables (engineJoin : HTable α → String → HTable β → String → String → HTable γ)
    (left_ht : HTable α) (left_key : String) (right_ht : HTable β) (right_key : String)
    (join_type : String) : HTable γ × List LogMsg :=
  let cmp := compare_row_counts left_ht right_ht
  let logs := cmp.2 ++ (if cmp.1 then [] else [LogMsg.sampleCountMismatch])
  (engineJoin left_ht left_key right_ht right_key join_type, logs)

/-! ## Python runtime errors (claims C2 and C6)

The export_info_vcf stage of generate_qc_annotations.py and the histogram
aggregation of make_var_annot_hists.py fail with Python runtime errors; a
minimal Python value/error model captures the failing evaluation. -/

/-- Python runtime errors relevant to the claims. -/
inductive PyErr where
  | typeErr (msg : String)
  | nameErr (name : String)
  deriving DecidableEq

/-- A Python module-level value: either a plain string, or a zero-argument
function returning a string (the shape of the path helpers in
gnomad_qc/v3/resources/annotations.py, e.g. get_info). -/
inductive PyVal where
  | pystr (s : String)
  | pyfunc0 (ret : String)
  deriving DecidableEq

/-- Calling a Python value with zero arguments: a function returns its result,
a string raises TypeError. -/
def pyCall0 : PyVal → Except PyErr String
  | PyVal.pystr _ => Except.error (PyErr.typeErr ("str object is not callable"))
  | PyVal.pyfunc0 r => Except.ok r

/-- The module-level binding in gnomad_qc/v3/resources/annotations.py:
    info_vcf_path = f'{ANNOTATIONS_ROOT}/gnomad_genomes_v3_info.vcf.bgz'
It is a plain string, not a function. -/
def info_vcf_path : PyVal :=
  PyVal.pystr
    ("gs://gnomad/annotations/hail-0.2/ht/genomes_v3/gnomad_genomes_v3_info.vcf.bgz")

/-- Embedding of the --export_info_vcf stage of generate_qc_annotations.main:
    info_ht = get_info(split=False).ht()
    hl.export_vcf(ht_to_vcf_mt(info_ht), info_vcf_path())
Reading the info table and converting it to a VCF-shaped matrix table are
external-engine steps modelled as succeeding; the stage then evaluates the
call expression info_vcf_path() to obtain the export path and on success
returns the path of the produced VCF artifact. -/
def export_info_vcf_stage : Except PyErr String := do
  let path ← pyCall0 info_vcf_path
  Except.ok path

/-- The names bound at module level in make_var_annot_hists.py when main runs:
its imports, the logger, LOG10_ANNOTATIONS, the two function defs, and main's
own locals up to line 63. ANNOTATIONS_HISTS is not among them: it is neither
imported nor defined. -/
def varAnnotHistsGlobals : List String :=
  [ "argparse", "json", "logging", "hl", "DataException",
    "create_frequency_bins_expr", "get_annotations_hists", "file_exists",
    "slack_notifications", "slack_token", "CURRENT_RELEASE",
    "annotation_hists_path", "qual_hists_json_path", "release_ht_path",
    "logger", "LOG10_ANNOTATIONS", "create_frequency_bins_expr_inbreeding",
    "main" ]

/-- Python name resolution against a module scope: an unbound name raises
NameError. -/
def lookupGlobal (scope : List String) (n : String) : Except PyErr String :=
  if scope.contains n then Except.ok n else Except.error (PyErr.nameErr n)

/-- Embedding of make_var_annot_hists.main. After reading the release table
(external, modelled as succeeding), line 63 executes
    hist_dict = ANNOTATIONS_HISTS
before the first_pass branch; the function then either prints min/max values
(--first_pass) or aggregates the histograms and writes the qual-hists JSON
file, returning the name of the artifact produced. -/
def make_var_annot_hists_main (first_pass : Bool) : Except PyErr String := do
  let _ ← lookupGlobal varAnnotHistsGlobals "release_ht_path"
  let _hist_dict ← lookupGlobal varAnnotHistsGlobals "ANNOTATIONS_HISTS"
  if first_pass then
    Except.ok ("minmax printed to stdout")
  else
    Except.ok ("qual_hists_json written")

/-! ## Module-level FEATURES and train_rf aliasing (claim C7)

random_forest.py, module level:
    FEATURES = ["InbreedingCoeff", "variant_type", "allele_type",
                "n_alt_alleles", "was_mixed", "AS_QD", "AS_pab_max",
                "AS_MQRankSum", "AS_SOR", "AS_ReadPosRankSum"]
train_rf begins with
    features = FEATURES
    if args.no_inbreeding_coeff:
        features.remove("InbreedingCoeff")
`features = FEATURES` binds the same list object, so `features.remove`
mutates the module-level list in place; list.remove deletes the first
occurrence, i.e. List.erase. -/

/-- The initial module-level FEATURES list of random_forest.py. -/
def FEATURES : List String :=
  [ "InbreedingCoeff", "variant_type", "allele_type", "n_alt_alleles",
    "was_mixed", "AS_QD", "AS_pab_max", "AS_MQRankSum", "AS_SOR",
    "AS_ReadPosRankSum" ]

/-- The value of the module-level FEATURES list after train_rf returns, as a
function of args.no_inbreeding_coeff: because `features = FEATURES` aliases
the module list, `features.remove("InbreedingCoeff")` removes the element from
the module-level list itself. -/
def featuresGlobalAfterTrainRf (no_inbreeding_coeff : Bool) : List String :=
  if no_inbreeding_coeff then FEATURES.erase ("InbreedingCoeff") else FEATURES

/-! ## compute_info allele counts (claim C8)

generate_qc_annotations.py, compute_info. For each alternate-allele index ai,
the entries with LA containing ai are grouped by their adj flag, summing the
one-hot allele count of the genotype at ai; then
    AC_raw = int32(grp.get(True, 0) + grp.get(False, 0))
    AC     = int32(grp.get(True, 0))
One-hot counts are naturals (each entry contributes 0, 1 or 2); the int32
conversion is embedded as two's-complement wrap-around. -/

/-- One genotype entry at a fixed alternate-allele index ai: whether the
entry's local alleles contain ai, the entry's adj flag, and the one-hot count
of ai among the genotype's alleles. -/
structure ACEntry where
  inLA : Bool
  adj : Bool
  oneHot : ℕ

/-- The grouped sum grp.get(b, 0): the sum of one-hot counts over entries
whose local alleles contain the allele and whose adj flag equals b. -/
def grpSum (es : List ACEntry) (b : Bool) : ℕ :=
  (es.filter (fun e => e.inLA && (e.adj == b))).foldr (fun e n => e.oneHot + n) 0

/-- hl.int32 of a non-negative 64-bit sum: two's-complement wrap into the
signed 32-bit range. -/
def toInt32 (n : ℕ) : ℤ :=
  ((n % 2 ^ 32 : ℕ) : ℤ) - (if n % 2 ^ 32 < 2 ^ 31 then 0 else 2 ^ 32)

/-- compute_info's AC for one allele: the adj group only. -/
def infoAC (es : List ACEntry) : ℤ := toInt32 (grpSum es true)

/-- compute_info's AC_raw for one allele: the sum of the adj and non-adj
groups. -/
def infoACraw (es : List ACEntry) : ℤ := toInt32 (grpSum es true + grpSum es false)

/-! ## Fresh run hash and run registration (claim C9)

random_forest.py, main, --train_rf stage:
    run_hash = str(uuid.uuid4())[:8]
    rf_runs = get_rf_runs(rf_run_hash_path())
    while run_hash in rf_runs:
        run_hash = str(uuid.uuid4())[:8]
    ...
    rf_runs[run_hash] = get_run_data(...)
    with hl.hadoop_open(rf_run_hash_path(), "w") as f:
        json.dump(rf_runs, f)
The uuid draws are embedded as a stream of candidate hashes, the while loop
with explicit fuel (the loop terminates only when a candidate outside the
dictionary appears), and the JSON dictionary as an association list. -/

/-- The regenerate-until-fresh loop: starting from draw index i with the
given fuel, return the first candidate hash not already a key, if the fuel
suffices. -/
def freshHash (gen : ℕ → String) (usedKeys : List String) : ℕ → ℕ → Option String
  | _, 0 => none
  | i, fuel + 1 =>
    if usedKeys.contains (gen i) then freshHash gen usedKeys (i + 1) fuel
    else some (gen i)

/-- rf_runs[run_hash] = run_data on the association-list embedding of the
JSON dictionary. -/
def registerRun (runs : List (String × String)) (h run_data : String) :
    List (String × String) :=
  (h, run_data) :: runs

end GnomadQC

namespace GnomadQC

/-- Claim C3: for every strand-bias count array of four non-negative integers,
calc_SOR matches the published GATK strand-odds-ratio formula with a
pseudocount of 1 added to each of the four counts. -/
theorem C3_calc_SOR_matches_gatk_formula (SB : Fin 4 → ℕ) :
    calc_SOR SB = gatk_SOR_formula SB := rfl

/-- Claim C5: the random-forest script exits with an error message before
running any pipeline stage if and only if --apply_rf is given without
--run_hash and without --train_rf, or --run_hash is given together with
--train_rf; every other flag combination proceeds into main. -/
theorem C5_rf_cli_exit_iff (a : RfCliArgs) :
    (rf_cli_exit a).isSome = true ↔
      (a.apply_rf = true ∧ pyTruthy a.run_hash = false ∧ a.train_rf = false)
      ∨ (pyTruthy a.run_hash = true ∧ a.train_rf = true) := by
  unfold rf_cli_exit
  rcases h : pyTruthy a.run_hash <;> rcases ht : a.train_rf <;> rcases hap : a.apply_rf <;> simp

/-- Claim C10: get_relationship_filter_expr returns missing whenever the sample
is hard-filtered, regardless of the relationship set; for a non-hard-filtered
sample it returns whether the set contains the relationship when the set is
defined, and False when the set is missing. -/
theorem C10_relationship_filter_cases (hf : Bool) (rel : String)
    (rs : Option (List String)) :
    get_relationship_filter_expr hf rel rs =
      if hf then none
      else some (match rs with | some s => s.contains rel | none => false) := by
  rcases hf <;> rcases rs <;> rfl

/-- Claim C1, as stated, is false: not every checkpoint taken on a run without
--overwrite has read-if-exists semantics. Concretely, the compute_qc_mt dense
checkpoint and the create_rf_ht rf_annotation checkpoint pass overwrite=True
unconditionally, and some checkpoints unconditionally overwrite even when
--overwrite is absent. -/
theorem C1_counterexample :
    checkpointCalls.all readIfExistsSemantics = false
      ∧ checkpointCalls.any alwaysOverwrites = true := by
  constructor <;> rfl

/-- Claim C1 (amended): on a run without --overwrite, every checkpoint guarded
by args.overwrite together with _read_if_exists=not overwrite has
read-if-exists semantics; the exceptions are exactly the temporary scratch
checkpoints (compute_qc_mt, reannotate_sex, reannotate_relatedness,
calculate_clinvar) and the create_rf_ht rf_annotation checkpoint, which pass
overwrite=True unconditionally, and the train_rf/apply_rf checkpoints of
random_forest.py, which write without read-if-exists. -/
theorem C1_amended_checkpoint_classes :
    checkpointCalls.all
      (fun c =>
        if alwaysOverwritePaths.contains c.path then alwaysOverwrites c
        else if plainWritePaths.contains c.path then plainWrite c
        else readIfExistsSemantics c) = true := by rfl

/-- Claim C4: for every pair of input tables and every join type, join_tables
returns the engine join of the left table keyed by left_key with the right
table keyed by right_key, and logs the sample-count-mismatch warning if and
only if the two row counts differ; the mismatch never alters the returned
join. -/
theorem C4_join_tables_warns_iff_counts_differ
    (engineJoin : HTable α → String → HTable β → String → String → HTable γ)
    (left_ht : HTable α) (left_key : String) (right_ht : HTable β) (right_key : String)
    (join_type : String) :
    (join_tables engineJoin left_ht left_key right_ht right_key join_type).1
        = engineJoin left_ht left_key right_ht right_key join_type
      ∧ (LogMsg.sampleCountMismatch
            ∈ (join_tables engineJoin left_ht left_key right_ht right_key join_type).2
          ↔ rowCount left_ht ≠ rowCount right_ht) := by
  refine ⟨rfl, ?_⟩
  unfold join_tables compare_row_counts
  by_cases h : rowCount left_ht = rowCount right_ht <;> simp [h]

/-- Claim C2 fails on the code: the --export_info_vcf stage calls
info_vcf_path(), but info_vcf_path is a module-level string in
gnomad_qc/v3/resources/annotations.py, so the stage raises TypeError instead
of producing the VCF artifact. -/
theorem C2_export_info_vcf_raises_type_error :
    export_info_vcf_stage = Except.error (PyErr.typeErr ("str object is not callable")) := rfl

/-- Claim C6 fails on the code: make_var_annot_hists.main evaluates the unbound
name ANNOTATIONS_HISTS (line 63) before the first_pass branch, so every run,
with or without --first_pass, raises NameError and never writes the qual-hists
JSON artifact. -/
theorem C6_var_annot_hists_raises_name_error (first_pass : Bool) :
    make_var_annot_hists_main first_pass
      = Except.error (PyErr.nameErr ("ANNOTATIONS_HISTS")) := rfl

/-- Claim C7 fails on the code: after train_rf runs with
--no_inbreeding_coeff, the module-level FEATURES list has lost
"InbreedingCoeff" (nine elements instead of ten), because
`features = FEATURES` aliases the module list and `features.remove` mutates it
in place; without the flag the list is unchanged. -/
theorem C7_features_global_mutated :
    featuresGlobalAfterTrainRf true ≠ FEATURES
      ∧ (featuresGlobalAfterTrainRf true).length = 9
      ∧ FEATURES.length = 10
      ∧ featuresGlobalAfterTrainRf false = FEATURES := by
  refine ⟨by decide, rfl, rfl, rfl⟩

/-- toInt32 is the identity below 2^31. -/
theorem toInt32_eq_of_lt {n : ℕ} (h : n < 2 ^ 31) : toInt32 n = (n : ℤ) := by
  have h32 : n < 2 ^ 32 := lt_trans h (by norm_num)
  rw [toInt32, Nat.mod_eq_of_lt h32, if_pos h, sub_zero]

/-- Claim C8: for every list of genotype entries at an alternate-allele index
(whose grouped sums do not overflow a 32-bit integer), compute_info's AC is
non-negative and never exceeds AC_raw: AC counts only adj calls, AC_raw the
adj and non-adj calls of the same non-negative aggregation. -/
theorem C8_AC_le_AC_raw (es : List ACEntry)
    (h : grpSum es true + grpSum es false < 2 ^ 31) :
    0 ≤ infoAC es ∧ infoAC es ≤ infoACraw es := by
  have hle : grpSum es true ≤ grpSum es true + grpSum es false := Nat.le_add_right _ _
  have h1 : grpSum es true < 2 ^ 31 := lt_of_le_of_lt hle h
  rw [infoAC, infoACraw, toInt32_eq_of_lt h1, toInt32_eq_of_lt h]
  exact ⟨by exact_mod_cast Nat.zero_le _, by exact_mod_cast hle⟩

/-- A concrete variant row for the C8 witness: two entries carrying the
allele (one adj, one raw-only) and one entry not carrying it. -/
def acEntriesExample : List ACEntry :=
  [ ⟨true, true, 1⟩, ⟨true, false, 2⟩, ⟨false, true, 2⟩ ]

/-- Witness for claim C8 at a concrete entry list. -/
theorem C8_AC_le_AC_raw_witness :
    (grpSum acEntriesExample true + grpSum acEntriesExample false < 2 ^ 31)
      ∧ (0 ≤ infoAC acEntriesExample ∧ infoAC acEntriesExample ≤ infoACraw acEntriesExample) :=
  ⟨by decide, C8_AC_le_AC_raw acEntriesExample (by decide)⟩

/-- A hash returned by the regenerate-until-fresh loop is not among the used
keys. -/
theorem freshHash_contains_eq_false (gen : ℕ → String) (used : List String) :
    ∀ (fuel i : ℕ) (hash : String),
      freshHash gen used i fuel = some hash → used.contains hash = false := by
  intro fuel
  induction fuel with
  | zero => intro i hash h; simp [freshHash] at h
  | succ f ih =>
    intro i hash h
    by_cases hc : used.contains (gen i) = true
    · rw [freshHash, if_pos hc] at h
      exact ih _ _ h
    · rw [freshHash, if_neg hc] at h
      have hg := Option.some.inj h
      subst hg
      simpa using hc

/-- A key with contains = false is not a member of the list. -/
theorem not_mem_of_contains_eq_false {l : List String} {a : String}
    (h : l.contains a = false) : a ∉ l := by
  simp at h
  exact h

/-- Claim C9: when --train_rf runs, the run hash accepted by the
regenerate-until-fresh loop is not a key of the RF runs dictionary previously
loaded from the run-hash JSON file, so registering the new run leaves every
existing run's entry unchanged in the dictionary that is written back. -/
theorem C9_fresh_hash_never_overwrites (gen : ℕ → String)
    (runs : List (String × String)) (run_data : String) (i fuel : ℕ) (hash : String)
    (h : freshHash gen (runs.map Prod.fst) i fuel = some hash) :
    (runs.map Prod.fst).contains hash = false
      ∧ ∀ k ∈ runs.map Prod.fst,
          List.lookup k (registerRun runs hash run_data) = List.lookup k runs := by
  have hfresh := freshHash_contains_eq_false gen (runs.map Prod.fst) fuel i hash h
  refine ⟨hfresh, ?_⟩
  intro k hk
  have hne : k ≠ hash := by
    intro e
    subst e
    exact not_mem_of_contains_eq_false hfresh hk
  have hbeq : (k == hash) = false := beq_eq_false_iff_ne.mpr hne
  simp [registerRun, List.lookup, hbeq]

/-- Witness for claim C9: a two-draw hash stream whose first draw collides
with the one existing run. -/
theorem C9_fresh_hash_never_overwrites_witness :
    freshHash (fun n => if n == 0 then "aaaa" else "bbbb")
        (([("aaaa", "d1")] : List (String × String)).map Prod.fst) 0 2 = some ("bbbb")
      ∧ ((([("aaaa", "d1")] : List (String × String)).map Prod.fst).contains ("bbbb") = false
          ∧ ∀ k ∈ (([("aaaa", "d1")] : List (String × String)).map Prod.fst),
              List.lookup k (registerRun [("aaaa", "d1")] ("bbbb") ("d2"))
                = List.lookup k [("aaaa", "d1")]) :=
  ⟨rfl,
    C9_fresh_hash_never_overwrites (fun n => if n == 0 then "aaaa" else "bbbb")
      [("aaaa", "d1")] ("d2") 0 2 ("bbbb") rfl⟩

end GnomadQC
